import Mathlib

/-!
Verification of the cache-and-fallback data-access layer of the ENS social
graph application.

Part 1: the optimistic-update edge store, a shallow embedding of the graph
page (`src/unnamed/part_005`): in-memory edge list with optimistic add/delete,
rollback on backend failure, sticky local-storage fallback mode, and the
localStorage persistence effect guarded by `edges.length > 0`.

Part 2: the activity route (`src/unnamed/part_002`, the 180-day revision):
cache check with a 24-hour TTL, refresh from the external explorer API,
stale-cache fallback, and the all-zero demo fallback.

Part 3: the HTTP request handlers' missing-parameter checks
(`src/unnamed/part_004` edges POST/DELETE, `src/unnamed/part_003` avatar GET,
`src/src/app/api/ens-search/route.ts` name search, and the activity GET).

External effects (fetch results, database reads/writes, the browser's
localStorage, clock values) are supplied as explicit environment values, so
every operation is a total function of its environment and state.
-/

namespace EnsGraph

/-- An edge record as held by the graph page.  The TypeScript interface
declares `id?: number; source; target`; rows loaded from the database
additionally carry `createdAt`, which the page's code never rewrites (it only
copies whole objects), so we keep it as an optional field. -/
structure Edge where
  id : Option Int
  source : String
  target : String
  createdAt : Option Int
  deriving DecidableEq, Repr

/-- The fixed demo edge set (`INITIAL_EDGES` in the page). -/
def INITIAL_EDGES : List Edge :=
  [ ⟨some 1, "vitalik.eth", "balajis.eth", none⟩,
    ⟨some 2, "vitalik.eth", "nick.eth", none⟩,
    ⟨some 3, "balajis.eth", "nick.eth", none⟩,
    ⟨some 4, "nick.eth", "brantly.eth", none⟩ ]

/-- Client-side state of the edge store: the React `edges` state, the
`useLocalStorage` mode flag, and the browser's persisted
`ens-graph-edges` item (`none` when the key is absent). -/
structure StoreState where
  edges : List Edge
  useLocalStorage : Bool
  localStore : Option (List Edge)
  deriving DecidableEq, Repr

/-- The persistence effect
`useEffect(() => { if (useLocalStorage && edges.length > 0) localStorage.setItem(...) }, [edges, useLocalStorage])`:
after any state change, write the edge list to local storage, but only in
fallback mode and only when the list is non-empty. -/
def persistEffect (s : StoreState) : StoreState :=
  if s.useLocalStorage = true ∧ s.edges ≠ [] then
    { s with localStore := some s.edges }
  else s

/-- A `setEdges` call followed by the persistence effect. -/
def setEdges (f : List Edge → List Edge) (s : StoreState) : StoreState :=
  persistEffect { s with edges := f s.edges }

/-- Outcome of the backend `POST /api/edges` request: success with the
database-assigned id, a non-success HTTP response (`res.ok` false), or a
rejected fetch / JSON failure (the `catch` path). -/
inductive AddOutcome where
  | ok (savedId : Int)
  | httpError
  | netError
  deriving DecidableEq, Repr

/-- Outcome of the backend `DELETE /api/edges` request. -/
inductive DeleteOutcome where
  | ok
  | httpError
  | netError
  deriving DecidableEq, Repr

/-- Outcome of the initial `GET /api/edges` load: a successful JSON array, or
a failed request (non-ok response or thrown error). -/
inductive LoadOutcome where
  | ok (data : List Edge)
  | fail
  deriving DecidableEq, Repr

/-- `handleAddEdge(source, target)`.  Appends the optimistic edge with the
temporary id, returns early in fallback mode, otherwise submits to the
backend: on success rewrites the temporary id in place; on a non-ok response
(`res.ok` false) does nothing further; on a thrown error filters the
temporary edge out (rollback).  The second component counts backend
requests issued (0 or 1). -/
def handleAddEdge (source target : String) (tempId : Int) (out : AddOutcome)
    (s : StoreState) : StoreState × Nat :=
  let s1 := setEdges (fun es => es ++ [⟨some tempId, source, target, none⟩]) s
  if s1.useLocalStorage = true then
    (s1, 0)
  else
    match out with
    | .ok savedId =>
        (setEdges (List.map fun e =>
          if e.id = some tempId then { e with id := some savedId } else e) s1, 1)
    | .httpError => (s1, 1)
    | .netError =>
        (setEdges (List.filter fun e => e.id != some tempId) s1, 1)

/-- `handleDeleteEdge(id)`.  Records the first edge with the given id (for
rollback), filters it from the view, returns early in fallback mode,
otherwise requests backend deletion: a non-ok response throws, so both
`httpError` and `netError` reach the catch, which re-appends the recorded
edge if one was found. -/
def handleDeleteEdge (i : Int) (out : DeleteOutcome) (s : StoreState) :
    StoreState × Nat :=
  let edgeToDelete := s.edges.find? (fun e => e.id == some i)
  let s1 := setEdges (List.filter fun e => e.id != some i) s
  if s1.useLocalStorage = true then
    (s1, 0)
  else
    match out with
    | .ok => (s1, 1)
    | .httpError =>
        (match edgeToDelete with
         | some e => (setEdges (fun es => es ++ [e]) s1, 1)
         | none => (s1, 1))
    | .netError =>
        (match edgeToDelete with
         | some e => (setEdges (fun es => es ++ [e]) s1, 1)
         | none => (s1, 1))

/-- `loadEdges()`.  On a successful response, replaces the view with the
returned list when it is non-empty (an empty database keeps the demo data
already in state).  On failure, sets the fallback flag, loads the persisted
list if one exists, and the persistence effect then runs once on the settled
state. -/
def loadEdges (out : LoadOutcome) (s : StoreState) : StoreState × Nat :=
  match out with
  | .ok data =>
      if data.length > 0 then (setEdges (fun _ => data) s, 1) else (s, 1)
  | .fail =>
      let s' : StoreState :=
        { s with useLocalStorage := true,
                 edges := match s.localStore with
                          | some l => l
                          | none => s.edges }
      (persistEffect s', 1)

/-- A fresh session: React state starts as `INITIAL_EDGES` with the
persistent mode flag clear; the browser storage is whatever survived. -/
def initialState (browserStore : Option (List Edge)) : StoreState :=
  { edges := INITIAL_EDGES, useLocalStorage := false, localStore := browserStore }

/-- One user-visible operation on the store, with its backend outcome. -/
inductive Op where
  | load (out : LoadOutcome)
  | add (source target : String) (tempId : Int) (out : AddOutcome)
  | del (i : Int) (out : DeleteOutcome)
  deriving Repr

/-- Apply one operation, returning the new state and the number of backend
requests it issued. -/
def stepOp : Op → StoreState → StoreState × Nat
  | .load out, s => loadEdges out s
  | .add src tgt tempId out, s => handleAddEdge src tgt tempId out s
  | .del i out, s => handleDeleteEdge i out s

/-- Whether an operation is a mutation (`addEdge` / `deleteEdge`). -/
def Op.isMutation : Op → Bool
  | .load _ => false
  | _ => true

/-- Run a sequence of operations. -/
def applyOps : List Op → StoreState → StoreState
  | [], s => s
  | op :: rest, s => applyOps rest (stepOp op s).1

/-- Total number of backend requests issued by a sequence of operations. -/
def backendCalls : List Op → StoreState → Nat
  | [], _ => 0
  | op :: rest, s => (stepOp op s).2 + backendCalls rest (stepOp op s).1

/-! Basic lemmas about the store embedding. -/

lemma persistEffect_useLocalStorage (s : StoreState) :
    (persistEffect s).useLocalStorage = s.useLocalStorage := by
  unfold persistEffect; split <;> rfl

lemma persistEffect_edges (s : StoreState) :
    (persistEffect s).edges = s.edges := by
  unfold persistEffect; split <;> rfl

lemma setEdges_useLocalStorage (f : List Edge → List Edge) (s : StoreState) :
    (setEdges f s).useLocalStorage = s.useLocalStorage := by
  unfold setEdges; rw [persistEffect_useLocalStorage]

lemma setEdges_edges (f : List Edge → List Edge) (s : StoreState) :
    (setEdges f s).edges = f s.edges := by
  unfold setEdges; rw [persistEffect_edges]

lemma stepOp_useLocalStorage_mono (op : Op) (s : StoreState)
    (h : s.useLocalStorage = true) : (stepOp op s).1.useLocalStorage = true := by
  cases op with
  | load out =>
      cases out with
      | ok data =>
          simp only [stepOp, loadEdges]
          split
          · rw [setEdges_useLocalStorage]; exact h
          · exact h
      | fail =>
          simp only [stepOp, loadEdges]
          rw [persistEffect_useLocalStorage]
  | add src tgt tempId out =>
      simp only [stepOp, handleAddEdge]
      rw [if_pos (by rw [setEdges_useLocalStorage]; exact h)]
      rw [setEdges_useLocalStorage]; exact h
  | del i out =>
      simp only [stepOp, handleDeleteEdge]
      rw [if_pos (by rw [setEdges_useLocalStorage]; exact h)]
      rw [setEdges_useLocalStorage]; exact h

lemma stepOp_fallback_noCall (op : Op) (s : StoreState)
    (h : s.useLocalStorage = true) (hm : op.isMutation = true) :
    (stepOp op s).2 = 0 := by
  cases op with
  | load out => simp [Op.isMutation] at hm
  | add src tgt tempId out =>
      simp only [stepOp, handleAddEdge]
      rw [if_pos (by rw [setEdges_useLocalStorage]; exact h)]
  | del i out =>
      simp only [stepOp, handleDeleteEdge]
      rw [if_pos (by rw [setEdges_useLocalStorage]; exact h)]

lemma applyOps_useLocalStorage_mono (ops : List Op) (s : StoreState)
    (h : s.useLocalStorage = true) : (applyOps ops s).useLocalStorage = true := by
  induction ops generalizing s with
  | nil => exact h
  | cons op rest ih =>
      exact ih _ (stepOp_useLocalStorage_mono op s h)

lemma backendCalls_fallback_zero (ops : List Op) (s : StoreState)
    (h : s.useLocalStorage = true) (hall : ∀ op ∈ ops, op.isMutation = true) :
    backendCalls ops s = 0 := by
  induction ops generalizing s with
  | nil => rfl
  | cons op rest ih =>
      simp only [backendCalls]
      rw [stepOp_fallback_noCall op s h (hall op (List.mem_cons_self op rest)),
        ih (stepOp op s).1 (stepOp_useLocalStorage_mono op s h)
          (fun o ho => hall o (List.mem_cons_of_mem op ho))]

lemma persistEffect_localStore_guard (s : StoreState)
    (h : (persistEffect s).localStore = some []) : s.localStore = some [] := by
  unfold persistEffect at h
  split at h
  · rename_i hc
    simp only [StoreState.mk.injEq] at h
    exact absurd (Option.some.inj h) hc.2
  · exact h

lemma setEdges_localStore_guard (f : List Edge → List Edge) (s : StoreState)
    (h : (setEdges f s).localStore = some []) : s.localStore = some [] := by
  unfold setEdges at h
  have h2 := persistEffect_localStore_guard _ h
  exact h2

lemma stepOp_localStore_guard (op : Op) (s : StoreState)
    (h : (stepOp op s).1.localStore = some []) : s.localStore = some [] := by
  cases op with
  | load out =>
      cases out with
      | ok data =>
          simp only [stepOp, loadEdges] at h
          split at h
          · exact setEdges_localStore_guard _ _ h
          · exact h
      | fail =>
          simp only [stepOp, loadEdges] at h
          have h2 := persistEffect_localStore_guard _ h
          exact h2
  | add src tgt tempId out =>
      cases out with
      | ok savedId =>
          simp only [stepOp, handleAddEdge] at h
          split at h
          · exact setEdges_localStore_guard _ _ h
          · exact setEdges_localStore_guard _ _ (setEdges_localStore_guard _ _ h)
      | httpError =>
          simp only [stepOp, handleAddEdge] at h
          split at h
          · exact setEdges_localStore_guard _ _ h
          · exact setEdges_localStore_guard _ _ h
      | netError =>
          simp only [stepOp, handleAddEdge] at h
          split at h
          · exact setEdges_localStore_guard _ _ h
          · exact setEdges_localStore_guard _ _ (setEdges_localStore_guard _ _ h)
  | del i out =>
      cases out with
      | ok =>
          simp only [stepOp, handleDeleteEdge] at h
          split at h
          · exact setEdges_localStore_guard _ _ h
          · exact setEdges_localStore_guard _ _ h
      | httpError =>
          simp only [stepOp, handleDeleteEdge] at h
          split at h
          · exact setEdges_localStore_guard _ _ h
          · rcases hf : List.find? (fun e => e.id == some i) s.edges with _ | e <;>
              simp only [hf] at h
            · exact setEdges_localStore_guard _ _ h
            · exact setEdges_localStore_guard _ _ (setEdges_localStore_guard _ _ h)
      | netError =>
          simp only [stepOp, handleDeleteEdge] at h
          split at h
          · exact setEdges_localStore_guard _ _ h
          · rcases hf : List.find? (fun e => e.id == some i) s.edges with _ | e <;>
              simp only [hf] at h
            · exact setEdges_localStore_guard _ _ h
            · exact setEdges_localStore_guard _ _ (setEdges_localStore_guard _ _ h)

lemma applyOps_localStore_guard (ops : List Op) (s : StoreState)
    (h : (applyOps ops s).localStore = some []) : s.localStore = some [] := by
  induction ops generalizing s with
  | nil => exact h
  | cons op rest ih =>
      exact stepOp_localStore_guard op s (ih _ h)

lemma find?_eq_of_nodup_ids (l : List Edge) (E : Edge) (i : Int)
    (hnd : (l.map Edge.id).Nodup) (hE : E ∈ l) (hid : E.id = some i) :
    l.find? (fun e => e.id == some i) = some E := by
  induction l with
  | nil => cases hE
  | cons a t ih =>
      rcases List.mem_cons.mp hE with rfl | hEt
      · exact List.find?_cons_of_pos _ (by simp [hid])
      · have hnd' := List.nodup_cons.mp hnd
        have ha : ¬ a.id = some i := by
          intro heq
          exact hnd'.1 (by
            rw [heq, ← hid]
            exact List.mem_map_of_mem Edge.id hEt)
        rw [List.find?_cons_of_neg _ (by simp [ha])]
        exact ih hnd'.2 hEt

/-! Claim theorems for the edge store. -/

/-- Claim C2 counterexample: the claim states that after *any* backend failure mode
of the add request — including a non-success HTTP response — the edge list is
restored to the pre-call list.  But `handleAddEdge` only rolls back inside the
`catch`; when the response arrives with `res.ok` false, the `if (res.ok)`
block is simply skipped and the optimistically appended temporary edge stays.
Concretely, adding `"a.eth" → "b.eth"` with temporary id 99 in persistent mode
against a non-ok response leaves a 5-element list where the pre-call list had
4 elements. -/
theorem addEdge_httpError_no_rollback :
    (handleAddEdge "a.eth" "b.eth" 99 .httpError (initialState none)).1.edges ≠
      (initialState none).edges := by
  intro h
  have hl := congrArg List.length h
  simp [handleAddEdge, setEdges_useLocalStorage, setEdges_edges, initialState,
    INITIAL_EDGES] at hl

/-- Claim C2 (corrected): if `addEdge(source, target)` runs in persistent
(non-fallback) mode with a fresh temporary id and the backend request fails
with a *network exception* (the rejected-fetch `catch` path), the post-call
edge list is identical by value to the pre-call list: the optimistically
appended temporary edge is filtered back out.  (On a non-success HTTP
response the optimistic edge is *not* removed — see the counterexample.) -/
theorem addEdge_netError_rollback (s : StoreState) (src tgt : String)
    (tempId : Int) (hmode : s.useLocalStorage = false)
    (hfresh : ∀ e ∈ s.edges, e.id ≠ some tempId) :
    (handleAddEdge src tgt tempId .netError s).1.edges = s.edges := by
  unfold handleAddEdge
  rw [if_neg (by rw [setEdges_useLocalStorage]; simp [hmode])]
  simp only [setEdges_edges]
  rw [List.filter_append, List.filter_eq_self.mpr (by
    intro e he
    simp [hfresh e he])]
  simp

/-- Witness for the corrected C2 at a concrete input. -/
theorem addEdge_netError_rollback_witness :
    (initialState none).useLocalStorage = false ∧
      (∀ e ∈ (initialState none).edges, e.id ≠ some 99) ∧
      (handleAddEdge "a.eth" "b.eth" 99 .netError (initialState none)).1.edges =
        (initialState none).edges :=
  ⟨rfl, by decide,
    addEdge_netError_rollback (initialState none) "a.eth" "b.eth" 99 rfl (by decide)⟩

/-- Claim C6: once the store is in local-fallback mode (`useLocalStorage = true`),
the flag never reverts under any sequence of operations, and a sequence
consisting of mutations (`addEdge` / `deleteEdge`) issues zero backend
requests: every mutation returns before its fetch in fallback mode. -/
theorem fallback_mode_sticky (s : StoreState) (ops : List Op)
    (h : s.useLocalStorage = true) :
    (applyOps ops s).useLocalStorage = true ∧
      ((∀ op ∈ ops, op.isMutation = true) → backendCalls ops s = 0) :=
  ⟨applyOps_useLocalStorage_mono ops s h,
   fun hall => backendCalls_fallback_zero ops s h hall⟩

/-- Witness for C6 at a concrete fallback-mode state and mutation trace. -/
theorem fallback_mode_sticky_witness :
    (applyOps [Op.add "a.eth" "b.eth" 7 (AddOutcome.ok 1), Op.del 7 .netError]
        { edges := INITIAL_EDGES, useLocalStorage := true,
          localStore := none }).useLocalStorage = true ∧
      backendCalls [Op.add "a.eth" "b.eth" 7 (AddOutcome.ok 1), Op.del 7 .netError]
        { edges := INITIAL_EDGES, useLocalStorage := true,
          localStore := none } = 0 :=
  ⟨(fallback_mode_sticky
      { edges := INITIAL_EDGES, useLocalStorage := true, localStore := none }
      [Op.add "a.eth" "b.eth" 7 (AddOutcome.ok 1), Op.del 7 .netError] rfl).1,
   (fallback_mode_sticky
      { edges := INITIAL_EDGES, useLocalStorage := true, localStore := none }
      [Op.add "a.eth" "b.eth" 7 (AddOutcome.ok 1), Op.del 7 .netError] rfl).2
     (by decide)⟩

/-- Claim C7: for an edge `E` in the list whose id is unique in the list, if
`deleteEdge(E.id)` runs in persistent mode and the backend deletion fails
(non-ok response or network exception — both reach the `catch`, since a
non-ok response is explicitly thrown), the post-call list contains `E` itself
by value: the rollback re-appends exactly the edge object recorded before the
optimistic removal, with its original `source`, `target` and `createdAt`. -/
theorem deleteEdge_failure_restores_exact_edge (s : StoreState) (E : Edge)
    (i : Int) (out : DeleteOutcome) (hmode : s.useLocalStorage = false)
    (hnd : (s.edges.map Edge.id).Nodup) (hE : E ∈ s.edges)
    (hid : E.id = some i) (hfail : out ≠ .ok) :
    E ∈ (handleDeleteEdge i out s).1.edges := by
  have hfind := find?_eq_of_nodup_ids s.edges E i hnd hE hid
  unfold handleDeleteEdge
  rw [if_neg (by rw [setEdges_useLocalStorage]; simp [hmode])]
  cases out with
  | ok => exact absurd rfl hfail
  | httpError =>
      simp only [hfind, setEdges_edges]
      exact List.mem_append_right _ (List.mem_singleton.mpr rfl)
  | netError =>
      simp only [hfind, setEdges_edges]
      exact List.mem_append_right _ (List.mem_singleton.mpr rfl)

/-- Witness for C7 at a concrete input: deleting edge 2 of the demo set with
a failing backend restores it. -/
theorem deleteEdge_failure_restores_exact_edge_witness :
    (initialState none).useLocalStorage = false ∧
      ((initialState none).edges.map Edge.id).Nodup ∧
      (⟨some 2, "vitalik.eth", "nick.eth", none⟩ : Edge) ∈
        (handleDeleteEdge 2 .httpError (initialState none)).1.edges :=
  ⟨rfl, by decide,
    deleteEdge_failure_restores_exact_edge (initialState none)
      ⟨some 2, "vitalik.eth", "nick.eth", none⟩ 2 .httpError rfl (by decide)
      (by decide) rfl (by decide)⟩

/-- A session trace that enters fallback mode and then deletes every edge of
the demo set, one by one. -/
def deleteAllTrace : List Op :=
  [Op.load .fail, Op.del 1 .ok, Op.del 2 .ok, Op.del 3 .ok, Op.del 4 .ok]

/-- Claim C10 counterexample: the claim states that after deleting every edge in
fallback mode, a fresh session "seeds the fixed demo edge set again".  In
fact the fresh session finds the persisted list from just before the final
delete — the one-element list `[edge 4]` — and loads *that*, not
`INITIAL_EDGES`.  Concretely: a fresh fallback session with empty browser
storage, followed by deleting edges 1–4, leaves `[edge 4]` persisted; a
reload after that shows `[edge 4]`, not the 4-element demo set. -/
theorem emptied_fallback_reload_is_not_demo_seed :
    (applyOps deleteAllTrace (initialState none)).edges = [] ∧
      (applyOps deleteAllTrace (initialState none)).localStore =
        some [⟨some 4, "nick.eth", "brantly.eth", none⟩] ∧
      (loadEdges .fail (initialState
          (applyOps deleteAllTrace (initialState none)).localStore)).1.edges =
        [⟨some 4, "nick.eth", "brantly.eth", none⟩] ∧
      (loadEdges .fail (initialState
          (applyOps deleteAllTrace (initialState none)).localStore)).1.edges ≠
        INITIAL_EDGES := by
  refine ⟨by decide, by decide, by decide, ?_⟩
  intro h
  have hl := congrArg List.length h
  revert hl
  decide

/-- Claim C10 (corrected): the persistence effect never writes an empty list to
local storage (so the list persisted before the final delete survives), and a
fresh session in fallback mode loads whatever list is persisted — the fixed
demo set is seeded only when nothing was ever persisted.  Deleted edges
therefore reappear on reload (at least the ones in the last persisted list),
but the reloaded list is the last persisted non-empty list, not the demo
set. -/
theorem localStorage_never_written_empty (ops : List Op) (s : StoreState)
    (l : List Edge) :
    ((applyOps ops s).localStore = some [] → s.localStore = some []) ∧
      (loadEdges .fail (initialState (some l))).1.edges = l ∧
      (loadEdges .fail (initialState none)).1.edges = INITIAL_EDGES :=
  ⟨applyOps_localStore_guard ops s,
   by simp only [loadEdges, initialState, persistEffect_edges],
   by simp only [loadEdges, initialState, persistEffect_edges]⟩

/-- Witness for the corrected C10 at concrete inputs: a fallback-mode state
whose storage holds the empty list keeps it through a delete (the guard
skips the write), and the fresh-session conjuncts at concrete lists. -/
theorem localStorage_never_written_empty_witness :
    ({ edges := ([] : List Edge), useLocalStorage := true,
        localStore := some [] } : StoreState).localStore = some [] ∧
      (loadEdges .fail (initialState
          (some [⟨some 4, "nick.eth", "brantly.eth", none⟩]))).1.edges =
        [⟨some 4, "nick.eth", "brantly.eth", none⟩] ∧
      (loadEdges .fail (initialState none)).1.edges = INITIAL_EDGES :=
  ⟨(localStorage_never_written_empty [Op.del 1 .ok]
      { edges := [], useLocalStorage := true, localStore := some [] }
      [⟨some 4, "nick.eth", "brantly.eth", none⟩]).1 (by decide),
   (localStorage_never_written_empty [Op.del 1 .ok]
      { edges := [], useLocalStorage := true, localStore := some [] }
      [⟨some 4, "nick.eth", "brantly.eth", none⟩]).2.1,
   (localStorage_never_written_empty [Op.del 1 .ok]
      { edges := [], useLocalStorage := true, localStore := some [] }
      [⟨some 4, "nick.eth", "brantly.eth", none⟩]).2.2⟩

/-!
Part 2: the activity route (`src/unnamed/part_002`, the 180-day revision of
`GET /api/activity`).  Calendar dates are modelled as UTC day indices
(`toISOString().split('T')[0]` of a millisecond timestamp is its floor
division by 86 400 000; the server clock is taken as UTC, so
`setDate(getDate() - i)` shifts the day index by exactly `i`).
-/

/-- One `{ date, count }` entry of the activity series; `date` is a UTC day
index. -/
structure Activity where
  date : Int
  count : Int
  deriving DecidableEq, Repr

/-- A row of the `activity_cache` table, as the route reads it back:
`activitiesJson` is the parsed JSON series, `updatedAt` a millisecond
timestamp. -/
structure CacheEntry where
  activitiesJson : List Activity
  maxCount : Int
  updatedAt : Int
  deriving DecidableEq, Repr

/-- An Etherscan transaction record; `timeStamp` is `parseInt(tx.timeStamp)`,
in seconds. -/
structure Tx where
  timeStamp : Int
  deriving DecidableEq, Repr

/-- `CACHE_EXPIRATION_MS = 24 * 60 * 60 * 1000`. -/
def CACHE_EXPIRATION_MS : Int := 24 * 60 * 60 * 1000

/-- Milliseconds per day. -/
def msPerDay : Int := 86400000

/-- UTC day index of a millisecond timestamp (the date part of
`toISOString`). -/
def utcDay (ms : Int) : Int := Int.fdiv ms msPerDay

/-- UTC day index of a transaction (`new Date(parseInt(timeStamp) * 1000)`).
-/
def txDay (tx : Tx) : Int := utcDay (tx.timeStamp * 1000)

/-- The `activityMap` count for one day: transactions whose millisecond
timestamp is at least the six-months-ago cutoff and whose UTC date is that
day. -/
def dayCount (txs : List Tx) (cutoffMs d : Int) : Int :=
  ((txs.filter fun tx =>
      decide (cutoffMs ≤ tx.timeStamp * 1000) && (txDay tx == d)).length : Int)

/-- The generation loop `for (i = 179; i >= 0; i--)`: 180 entries, the k-th
having date `today - 179 + k`, looked up in the activity map (0 when
absent). -/
def buildSeries (todayDay : Int) (count : Int → Int) : List Activity :=
  (List.range 180).map fun (k : Nat) =>
    { date := todayDay - 179 + (k : Int), count := count (todayDay - 179 + (k : Int)) }

/-- `Math.max(...activities.map(a => a.count), 1)`. -/
def maxCountOf (acts : List Activity) : Int :=
  (acts.map Activity.count).foldr max 1

/-- Environment of one route invocation: whether a database is configured,
the results of the two cache `select`s for the normalized address (step-1
check and failure-fallback check; `.error` models the store itself being
unreachable), whether the cache write would fail, the joint outcome of the
two Etherscan fetches (`.error` covers a missing API key, a rejected or
timed-out fetch, a non-ok response status, and JSON failures — the whole
`try` block throwing), the clock, and the `sixMonthsAgo` cutoff computed by
`setMonth(getMonth() - 6)`. -/
structure ActEnv where
  hasDb : Bool
  read1 : Except Unit (Option CacheEntry)
  read2 : Except Unit (Option CacheEntry)
  writeFails : Bool
  fetchResult : Except Unit (List Tx × List Tx)
  nowMs : Int
  cutoffMs : Int

/-- The JSON body and status the route responds with. -/
structure ActResponse where
  status : Nat
  activities : List Activity
  maxCount : Int
  cached : Bool
  stale : Bool
  demo : Bool
  cacheAge : Option Int
  hasError : Bool
  deriving DecidableEq, Repr

/-- The observable result of one invocation: the response, whether the
external API was called, the attempted cache write (key and row) if any, and
whether that write persisted. -/
structure ActResult where
  resp : ActResponse
  fetchCalled : Bool
  wrote : Option (String × CacheEntry)
  writePersisted : Bool
  deriving DecidableEq, Repr

/-- The fresh-cache-hit response: parsed cached series, cached flag, age in
whole minutes (`Math.floor(cacheAge / 1000 / 60)`). -/
def cacheHitResp (e : CacheEntry) (age : Int) : ActResponse :=
  { status := 200, activities := e.activitiesJson, maxCount := e.maxCount,
    cached := true, stale := false, demo := false,
    cacheAge := some (Int.fdiv age 60000), hasError := false }

/-- The stale-fallback response: cached series tagged `cached` and `stale`.
-/
def staleResp (e : CacheEntry) : ActResponse :=
  { status := 200, activities := e.activitiesJson, maxCount := e.maxCount,
    cached := true, stale := true, demo := false,
    cacheAge := none, hasError := false }

/-- The demo-fallback response: a zero-filled 180-day series ending today,
`maxCount` 1, tagged `demo` with the error indicator. -/
def demoResp (todayDay : Int) : ActResponse :=
  { status := 200, activities := buildSeries todayDay (fun _ => 0),
    maxCount := 1, cached := false, stale := false, demo := true,
    cacheAge := none, hasError := true }

/-- The missing-parameter response (`{ error: ... }, { status: 400 }`). -/
def badRequestResp : ActResponse :=
  { status := 400, activities := [], maxCount := 0, cached := false,
    stale := false, demo := false, cacheAge := none, hasError := true }

/-- The step-1 cache check: when a database is configured and the select
succeeds, an entry strictly younger than 24 hours is a hit.  A failed read
(`catch`) and an exactly-24-hours-old entry both fall through to the
refresh. -/
def step1Hit (env : ActEnv) : Option CacheEntry :=
  if env.hasDb = true then
    match env.read1 with
    | .ok (some e) =>
        if env.nowMs - e.updatedAt < CACHE_EXPIRATION_MS then some e else none
    | .ok none => none
    | .error _ => none
  else none

/-- The catch-block cache re-read: any entry, of any age, is used; a failed
read is treated as no entry. -/
def fallbackEntry (env : ActEnv) : Option CacheEntry :=
  if env.hasDb = true then
    match env.read2 with
    | .ok (some e) => some e
    | .ok none => none
    | .error _ => none
  else none

/-- The 180-day series built from a successful fetch: normal and internal
transactions concatenated, bucketed by UTC day with the six-month cutoff. -/
def freshActs (env : ActEnv) (p : List Tx × List Tx) : List Activity :=
  buildSeries (utcDay env.nowMs) (dayCount (p.1 ++ p.2) env.cutoffMs)

/-- The `GET /api/activity` handler.  `address` is the query parameter
(`none` when absent).  Mirrors the route: 400 on a missing address; step 1
returns a cache entry younger than 24 hours; otherwise the external fetch
runs — on success the 180-day series is built, the maximum computed with a
floor of 1, and (when a database is configured) an insert-or-replace of the
row for the lowercase address is attempted, whose own failure is caught and
ignored; on fetch failure the cache is consulted once more and returned
stale if present, else the zero-filled demo series is returned.  All failure
handling is internal: the function is total and never propagates an
upstream failure. -/
def activityGET (env : ActEnv) (address : Option String) : ActResult :=
  match address with
  | none =>
      { resp := badRequestResp, fetchCalled := false, wrote := none,
        writePersisted := false }
  | some addr =>
      match step1Hit env with
      | some e =>
          { resp := cacheHitResp e (env.nowMs - e.updatedAt),
            fetchCalled := false, wrote := none, writePersisted := false }
      | none =>
          match env.fetchResult with
          | .ok p =>
              { resp := { status := 200, activities := freshActs env p,
                          maxCount := maxCountOf (freshActs env p),
                          cached := false, stale := false, demo := false,
                          cacheAge := none, hasError := false },
                fetchCalled := true,
                wrote := if env.hasDb = true then
                    some (addr.toLower,
                      { activitiesJson := freshActs env p,
                        maxCount := maxCountOf (freshActs env p),
                        updatedAt := env.nowMs })
                  else none,
                writePersisted := env.hasDb && !env.writeFails }
          | .error _ =>
              match fallbackEntry env with
              | some e =>
                  { resp := staleResp e, fetchCalled := true, wrote := none,
                    writePersisted := false }
              | none =>
                  { resp := demoResp (utcDay env.nowMs), fetchCalled := true,
                    wrote := none, writePersisted := false }

/-! Shape lemmas for the generated series. -/

/-- A well-formed trailing window: exactly 180 entries, the k-th dated
`today - 179 + k` — so the dates are consecutive calendar days, in
chronological order, ending today. -/
def wellFormedSeries (today : Int) (acts : List Activity) : Prop :=
  acts.length = 180 ∧
    ∀ k (hk : k < acts.length), (acts.get ⟨k, hk⟩).date = today - 179 + (k : Int)

lemma buildSeries_length (t : Int) (c : Int → Int) :
    (buildSeries t c).length = 180 := by
  rw [buildSeries, List.length_map, List.length_range]

lemma wellFormed_buildSeries (t : Int) (c : Int → Int) :
    wellFormedSeries t (buildSeries t c) := by
  refine ⟨buildSeries_length t c, ?_⟩
  intro k hk
  simp only [buildSeries, List.get_eq_getElem, List.getElem_map,
    List.getElem_range]

lemma buildSeries_count (t : Int) (c : Int → Int) (a : Activity)
    (ha : a ∈ buildSeries t c) : a.count = c a.date := by
  simp only [buildSeries, List.mem_map, List.mem_range] at ha
  obtain ⟨k, _, rfl⟩ := ha
  rfl

lemma foldr_max_one_le (l : List Int) : 1 ≤ l.foldr max 1 := by
  induction l with
  | nil => exact le_refl 1
  | cons a t ih => exact le_trans ih (le_max_right a _)

lemma maxCountOf_ge_one (acts : List Activity) : 1 ≤ maxCountOf acts :=
  foldr_max_one_le _

lemma foldr_max_of_le_one (l : List Int) (h : ∀ x ∈ l, x ≤ 1) :
    l.foldr max 1 = 1 := by
  induction l with
  | nil => rfl
  | cons a t ih =>
      simp only [List.foldr_cons]
      rw [ih (fun x hx => h x (List.mem_cons_of_mem a hx))]
      exact max_eq_right (h a (List.mem_cons_self a t))

lemma maxCountOf_demo (t : Int) :
    maxCountOf (buildSeries t (fun _ => 0)) = 1 := by
  refine foldr_max_of_le_one _ ?_
  intro x hx
  simp only [List.mem_map] at hx
  obtain ⟨a, ha, rfl⟩ := hx
  rw [buildSeries_count t _ a ha]
  exact Int.le_of_lt Int.zero_lt_one

/-! Branch lemmas for the route. -/

lemma step1Hit_inv (env : ActEnv) (e : CacheEntry)
    (h : step1Hit env = some e) :
    env.hasDb = true ∧ env.read1 = .ok (some e) ∧
      env.nowMs - e.updatedAt < CACHE_EXPIRATION_MS := by
  by_cases hdb : env.hasDb = true
  · rcases hr1 : env.read1 with u | o
    · simp [step1Hit, hdb, hr1] at h
    · rcases o with _ | e1
      · simp [step1Hit, hdb, hr1] at h
      · by_cases hage : env.nowMs - e1.updatedAt < CACHE_EXPIRATION_MS
        · simp only [step1Hit, hdb, hr1, if_true, hage, if_pos,
            Option.some.injEq] at h
          subst h
          exact ⟨hdb, rfl, hage⟩
        · simp [step1Hit, hdb, hr1, hage] at h
  · simp [step1Hit, hdb] at h

lemma fallbackEntry_inv (env : ActEnv) (e : CacheEntry)
    (h : fallbackEntry env = some e) :
    env.hasDb = true ∧ env.read2 = .ok (some e) := by
  by_cases hdb : env.hasDb = true
  · rcases hr2 : env.read2 with u | o
    · simp [fallbackEntry, hdb, hr2] at h
    · rcases o with _ | e1
      · simp [fallbackEntry, hdb, hr2] at h
      · simp only [fallbackEntry, hdb, hr2, if_true, Option.some.injEq] at h
        subst h
        exact ⟨hdb, rfl⟩
  · simp [fallbackEntry, hdb] at h

lemma fetchCalled_of_miss (env : ActEnv) (addr : String)
    (h : step1Hit env = none) :
    (activityGET env (some addr)).fetchCalled = true := by
  rcases hf : env.fetchResult with u | p
  · simp only [activityGET, h, hf]
    rcases hfb : fallbackEntry env with _ | e <;> simp only [hfb]
  · simp only [activityGET, h, hf]

/-! Claim theorems for the activity route. -/

/-- Claim C3: with a database configured and a readable cache entry for the
(normalized) address, the entry's age being strictly below 24 hours is
equivalent to the route answering directly from the cache — `cached = true`,
the age reported in whole minutes (`Math.floor(age/1000/60)`), no external
call, no cache write; and an entry aged exactly 24 hours instead triggers
the external refresh. -/
theorem cache_hit_iff_age_lt_24h (env : ActEnv) (addr : String)
    (e : CacheEntry) (hdb : env.hasDb = true)
    (hr1 : env.read1 = .ok (some e)) :
    ((env.nowMs - e.updatedAt < CACHE_EXPIRATION_MS) ↔
        activityGET env (some addr) =
          { resp := cacheHitResp e (env.nowMs - e.updatedAt),
            fetchCalled := false, wrote := none, writePersisted := false }) ∧
      (env.nowMs - e.updatedAt = CACHE_EXPIRATION_MS →
        (activityGET env (some addr)).fetchCalled = true) := by
  by_cases hage : env.nowMs - e.updatedAt < CACHE_EXPIRATION_MS
  · refine ⟨⟨fun _ => ?_, fun _ => hage⟩, fun heq => ?_⟩
    · have h1 : step1Hit env = some e := by
        simp [step1Hit, hdb, hr1, hage]
      simp only [activityGET, h1]
    · rw [heq] at hage
      exact absurd hage (lt_irrefl _)
  · have h1 : step1Hit env = none := by
      simp [step1Hit, hdb, hr1, hage]
    refine ⟨⟨fun h => absurd h hage, fun heq => ?_⟩,
      fun _ => fetchCalled_of_miss env addr h1⟩
    have hfc := congrArg ActResult.fetchCalled heq
    rw [fetchCalled_of_miss env addr h1] at hfc
    simp at hfc

/-- Concrete environment for the C3 witness: an entry 1 hour old. -/
def envC3 : ActEnv :=
  { hasDb := true, read1 := .ok (some ⟨[⟨5, 3⟩], 3, 0⟩),
    read2 := .ok none, writeFails := false, fetchResult := .error (),
    nowMs := 3600000, cutoffMs := 0 }

/-- Witness for C3: the 1-hour-old entry is served from the cache. -/
theorem cache_hit_iff_age_lt_24h_witness :
    activityGET envC3 (some "0xAbC") =
      { resp := cacheHitResp ⟨[⟨5, 3⟩], 3, 0⟩
          (envC3.nowMs - (⟨[⟨5, 3⟩], 3, 0⟩ : CacheEntry).updatedAt),
        fetchCalled := false, wrote := none, writePersisted := false } :=
  ((cache_hit_iff_age_lt_24h envC3 "0xAbC" ⟨[⟨5, 3⟩], 3, 0⟩ rfl rfl).1).mp
    (by decide)

/-- Claim C4: with no cache entry for the address (both selects answer "no row")
and a failed external fetch, the route returns the demo response: 180
entries all of count 0, `maxCount = 1`, `demo = true` with the error
indicator, HTTP 200 — the raw failure is absorbed, never propagated. -/
theorem demo_fallback_shape (env : ActEnv) (addr : String)
    (hr1 : env.read1 = .ok none) (hr2 : env.read2 = .ok none)
    (hfetch : env.fetchResult = .error ()) :
    activityGET env (some addr) =
      { resp := demoResp (utcDay env.nowMs), fetchCalled := true,
        wrote := none, writePersisted := false } ∧
      (demoResp (utcDay env.nowMs)).demo = true ∧
      (demoResp (utcDay env.nowMs)).hasError = true ∧
      (demoResp (utcDay env.nowMs)).status = 200 ∧
      (demoResp (utcDay env.nowMs)).maxCount = 1 ∧
      (demoResp (utcDay env.nowMs)).activities.length = 180 ∧
      ∀ a ∈ (demoResp (utcDay env.nowMs)).activities, a.count = 0 := by
  have h1 : step1Hit env = none := by
    unfold step1Hit
    split
    · rw [hr1]
    · rfl
  have h2 : fallbackEntry env = none := by
    unfold fallbackEntry
    split
    · rw [hr2]
    · rfl
  refine ⟨by simp only [activityGET, h1, hfetch, h2], rfl, rfl, rfl, rfl,
    buildSeries_length (utcDay env.nowMs) (fun _ => 0), ?_⟩
  intro a ha
  exact buildSeries_count (utcDay env.nowMs) (fun _ => 0) a ha

/-- Concrete environment for the C4 witness. -/
def envC4 : ActEnv :=
  { hasDb := true, read1 := .ok none, read2 := .ok none,
    writeFails := false, fetchResult := .error (), nowMs := 1700000000000,
    cutoffMs := 0 }

/-- Witness for C4 at a concrete environment. -/
theorem demo_fallback_shape_witness :
    activityGET envC4 (some "0xAbC") =
      { resp := demoResp (utcDay envC4.nowMs), fetchCalled := true,
        wrote := none, writePersisted := false } ∧
      (demoResp (utcDay envC4.nowMs)).demo = true ∧
      (demoResp (utcDay envC4.nowMs)).hasError = true ∧
      (demoResp (utcDay envC4.nowMs)).status = 200 ∧
      (demoResp (utcDay envC4.nowMs)).maxCount = 1 ∧
      (demoResp (utcDay envC4.nowMs)).activities.length = 180 ∧
      ∀ a ∈ (demoResp (utcDay envC4.nowMs)).activities, a.count = 0 :=
  demo_fallback_shape envC4 "0xAbC" rfl rfl rfl

/-- Claim C5: when a refresh is attempted (the step-1 check did not hit), the
external fetch fails, and the catch-block re-read finds a cache entry of any
age, the route returns exactly that entry's series and `maxCount`, tagged
`cached = true` and `stale = true`, with no cache write (the stored entry is
left unchanged). -/
theorem stale_fallback_exact (env : ActEnv) (addr : String) (e : CacheEntry)
    (hdb : env.hasDb = true) (hr2 : env.read2 = .ok (some e))
    (hfetch : env.fetchResult = .error ())
    (hattempt : step1Hit env = none) :
    activityGET env (some addr) =
      { resp := staleResp e, fetchCalled := true, wrote := none,
        writePersisted := false } ∧
      (staleResp e).activities = e.activitiesJson ∧
      (staleResp e).maxCount = e.maxCount ∧
      (staleResp e).cached = true ∧ (staleResp e).stale = true := by
  have h2 : fallbackEntry env = some e := by
    unfold fallbackEntry
    rw [if_pos hdb, hr2]
  exact ⟨by simp only [activityGET, hattempt, hfetch, h2], rfl, rfl, rfl, rfl⟩

/-- Concrete environment for the C5 witness: an entry 30 days old, fetch
down. -/
def envC5 : ActEnv :=
  { hasDb := true, read1 := .ok (some ⟨[⟨7, 2⟩], 2, 0⟩),
    read2 := .ok (some ⟨[⟨7, 2⟩], 2, 0⟩), writeFails := false,
    fetchResult := .error (), nowMs := 2592000000, cutoffMs := 0 }

/-- Witness for C5 at a concrete environment. -/
theorem stale_fallback_exact_witness :
    activityGET envC5 (some "0xAbC") =
      { resp := staleResp ⟨[⟨7, 2⟩], 2, 0⟩, fetchCalled := true,
        wrote := none, writePersisted := false } ∧
      (staleResp (⟨[⟨7, 2⟩], 2, 0⟩ : CacheEntry)).activities =
        (⟨[⟨7, 2⟩], 2, 0⟩ : CacheEntry).activitiesJson ∧
      (staleResp (⟨[⟨7, 2⟩], 2, 0⟩ : CacheEntry)).maxCount =
        (⟨[⟨7, 2⟩], 2, 0⟩ : CacheEntry).maxCount ∧
      (staleResp (⟨[⟨7, 2⟩], 2, 0⟩ : CacheEntry)).cached = true ∧
      (staleResp (⟨[⟨7, 2⟩], 2, 0⟩ : CacheEntry)).stale = true :=
  stale_fallback_exact envC5 "0xAbC" ⟨[⟨7, 2⟩], 2, 0⟩ rfl rfl rfl (by decide)

/-- Concrete environment for the C1 counterexample: a database with a cached
row whose stored series has a single entry (e.g. written by the 365-day
revision or simply older), aged exactly 24 hours so the step-1 check misses,
and a failing external fetch. -/
def envC1 : ActEnv :=
  { hasDb := true, read1 := .ok (some ⟨[⟨0, 2⟩], 2, 0⟩),
    read2 := .ok (some ⟨[⟨0, 2⟩], 2, 0⟩), writeFails := false,
    fetchResult := .error (), nowMs := CACHE_EXPIRATION_MS, cutoffMs := 0 }

/-- Claim C1 counterexample: the claim asserts that on every fallback path the
returned series has exactly 180 consecutive daily entries ending today.  On
the stale-fallback path the route returns the *stored* series verbatim
(`JSON.parse(cached[0].activitiesJson)`), whose length and dates are whatever
was cached — here a 1-entry series, and in general a series ending on its
write day rather than today. -/
theorem stale_path_series_not_180_ending_today :
    (activityGET envC1 (some "0xabc")).resp.stale = true ∧
      (activityGET envC1 (some "0xabc")).resp.activities.length ≠ 180 := by
  decide

/-- Claim C1 (corrected): for every environment and address, the response on the
fresh-fetch and demo-fallback paths (`cached = false`) is a well-formed
series — exactly 180 entries with consecutive dates ending today — whose
`maxCount` is the maximum single-day count floored at 1; on the cache-hit and
stale-fallback paths (`cached = true`) the response returns a stored cache
entry's series and `maxCount` verbatim, which need not end today nor have
180 entries.  The handler is a total function, so no external failure mode
reaches the caller. -/
theorem activity_series_wellformed_or_cached (env : ActEnv) (addr : String) :
    ((activityGET env (some addr)).resp.cached = false →
        wellFormedSeries (utcDay env.nowMs)
          (activityGET env (some addr)).resp.activities ∧
        (activityGET env (some addr)).resp.maxCount =
          maxCountOf (activityGET env (some addr)).resp.activities ∧
        1 ≤ (activityGET env (some addr)).resp.maxCount) ∧
      ((activityGET env (some addr)).resp.cached = true →
        ∃ e, (env.read1 = .ok (some e) ∨ env.read2 = .ok (some e)) ∧
          (activityGET env (some addr)).resp.activities = e.activitiesJson ∧
          (activityGET env (some addr)).resp.maxCount = e.maxCount) := by
  rcases h1 : step1Hit env with _ | e
  · rcases hf : env.fetchResult with u | p
    · rcases hfb : fallbackEntry env with _ | e2
      · have hres : activityGET env (some addr) =
            { resp := demoResp (utcDay env.nowMs), fetchCalled := true,
              wrote := none, writePersisted := false } := by
          simp only [activityGET, h1, hf, hfb]
        rw [hres]
        refine And.intro (fun _ => And.intro ?_ (And.intro ?_ ?_))
          (fun hc => nomatch hc)
        · exact wellFormed_buildSeries (utcDay env.nowMs) (fun _ => 0)
        · exact (maxCountOf_demo (utcDay env.nowMs)).symm
        · exact le_refl 1
      · have hres : activityGET env (some addr) =
            { resp := staleResp e2, fetchCalled := true, wrote := none,
              writePersisted := false } := by
          simp only [activityGET, h1, hf, hfb]
        rw [hres]
        exact And.intro (fun hc => nomatch hc) (fun _ =>
          ⟨e2, Or.inr (fallbackEntry_inv env e2 hfb).2, rfl, rfl⟩)
    · have hres : activityGET env (some addr) =
          { resp := { status := 200, activities := freshActs env p,
                      maxCount := maxCountOf (freshActs env p),
                      cached := false, stale := false, demo := false,
                      cacheAge := none, hasError := false },
            fetchCalled := true,
            wrote := if env.hasDb = true then
                some (addr.toLower,
                  { activitiesJson := freshActs env p,
                    maxCount := maxCountOf (freshActs env p),
                    updatedAt := env.nowMs })
              else none,
            writePersisted := env.hasDb && !env.writeFails } := by
        simp only [activityGET, h1, hf]
      rw [hres]
      refine And.intro (fun _ => And.intro ?_ (And.intro rfl ?_))
        (fun hc => nomatch hc)
      · exact wellFormed_buildSeries (utcDay env.nowMs)
          (dayCount (p.1 ++ p.2) env.cutoffMs)
      · exact maxCountOf_ge_one (freshActs env p)
  · have hres : activityGET env (some addr) =
        { resp := cacheHitResp e (env.nowMs - e.updatedAt),
          fetchCalled := false, wrote := none, writePersisted := false } := by
      simp only [activityGET, h1]
    rw [hres]
    exact And.intro (fun hc => nomatch hc) (fun _ =>
      ⟨e, Or.inl (step1Hit_inv env e h1).2.1, rfl, rfl⟩)

/-- Concrete environment for the C1 witness: no database, successful fetch
with no transactions. -/
def envC1w : ActEnv :=
  { hasDb := false, read1 := .ok none, read2 := .ok none,
    writeFails := false, fetchResult := .ok ([⟨1700000000⟩], []),
    nowMs := 1700000000000, cutoffMs := 0 }

/-- Witness for the corrected C1: the fresh path of a concrete environment
yields a well-formed series. -/
theorem activity_series_wellformed_or_cached_witness :
    wellFormedSeries (utcDay envC1w.nowMs)
        (activityGET envC1w (some "0xAbC")).resp.activities ∧
      (activityGET envC1w (some "0xAbC")).resp.maxCount =
        maxCountOf (activityGET envC1w (some "0xAbC")).resp.activities ∧
      1 ≤ (activityGET envC1w (some "0xAbC")).resp.maxCount :=
  (activity_series_wellformed_or_cached envC1w "0xAbC").1 (by decide)

/-- Claim C8: the write discipline of the route.  (1) At most one cache write is
attempted per call (`wrote` is an `Option`), and an attempted write implies a
configured database, a successful external fetch, and the fresh (non-cached,
non-stale, non-demo) response — the cache-hit, stale and demo paths write
nothing.  (2,3) A failed step-1 or catch-block cache read produces exactly
the same result as that read returning no row.  (4) A failing cache write is
caught and changes nothing about the response. -/
theorem cache_write_discipline (env : ActEnv) (a : Option String) :
    ((activityGET env a).wrote ≠ none →
        env.hasDb = true ∧ (∃ p, env.fetchResult = .ok p) ∧
        (activityGET env a).resp.cached = false ∧
        (activityGET env a).resp.stale = false ∧
        (activityGET env a).resp.demo = false) ∧
      activityGET { env with read1 := .error () } a =
        activityGET { env with read1 := .ok none } a ∧
      activityGET { env with read2 := .error () } a =
        activityGET { env with read2 := .ok none } a ∧
      (activityGET { env with writeFails := true } a).resp =
        (activityGET env a).resp := by
  refine ⟨?_, rfl, rfl, ?_⟩
  · intro hw
    cases a with
    | none => exact absurd rfl hw
    | some addr =>
        rcases h1 : step1Hit env with _ | e
        · rcases hf : env.fetchResult with u | p
          · exfalso
            apply hw
            rcases hfb : fallbackEntry env with _ | e2 <;>
              simp only [activityGET, h1, hf, hfb]
          · have hres : activityGET env (some addr) =
                { resp := { status := 200, activities := freshActs env p,
                            maxCount := maxCountOf (freshActs env p),
                            cached := false, stale := false, demo := false,
                            cacheAge := none, hasError := false },
                  fetchCalled := true,
                  wrote := if env.hasDb = true then
                      some (addr.toLower,
                        { activitiesJson := freshActs env p,
                          maxCount := maxCountOf (freshActs env p),
                          updatedAt := env.nowMs })
                    else none,
                  writePersisted := env.hasDb && !env.writeFails } := by
              simp only [activityGET, h1, hf]
            rw [hres] at hw ⊢
            by_cases hdb : env.hasDb = true
            · exact ⟨hdb, ⟨p, rfl⟩, rfl, rfl, rfl⟩
            · exfalso
              apply hw
              show (if env.hasDb = true then _ else none) = none
              rw [if_neg hdb]
        · exfalso
          apply hw
          simp only [activityGET, h1]
  · rcases env with ⟨db, r1, r2, wf, ft, now, cut⟩
    cases a with
    | none => rfl
    | some addr =>
        have h1 : step1Hit ⟨db, r1, r2, true, ft, now, cut⟩ =
            step1Hit ⟨db, r1, r2, wf, ft, now, cut⟩ := rfl
        have h2 : fallbackEntry ⟨db, r1, r2, true, ft, now, cut⟩ =
            fallbackEntry ⟨db, r1, r2, wf, ft, now, cut⟩ := rfl
        rcases hs : step1Hit (⟨db, r1, r2, wf, ft, now, cut⟩ : ActEnv)
          with _ | e
        · rcases ft with u | p
          · rcases hfb : fallbackEntry
                (⟨db, r1, r2, wf, .error u, now, cut⟩ : ActEnv) with _ | e2 <;>
              simp only [activityGET, h1, h2, hs, hfb]
          · have h3 : freshActs (⟨db, r1, r2, true, .ok p, now, cut⟩ : ActEnv) p =
                freshActs (⟨db, r1, r2, wf, .ok p, now, cut⟩ : ActEnv) p := rfl
            simp only [activityGET, h1, h2, hs, h3]
        · simp only [activityGET, h1, h2, hs]

/-- Concrete environment for the C8 witness: a successful refresh against a
configured database. -/
def envC8 : ActEnv :=
  { hasDb := true, read1 := .ok none, read2 := .ok none,
    writeFails := false, fetchResult := .ok ([], []), nowMs := 0,
    cutoffMs := 0 }

/-- Witness for C8: at a concrete environment where a write is attempted, the
response is the fresh one. -/
theorem cache_write_discipline_witness :
    envC8.hasDb = true ∧ (∃ p, envC8.fetchResult = .ok p) ∧
      (activityGET envC8 (some "0xa")).resp.cached = false ∧
      (activityGET envC8 (some "0xa")).resp.stale = false ∧
      (activityGET envC8 (some "0xa")).resp.demo = false :=
  (cache_write_discipline envC8 (some "0xa")).1 (by decide)

/-!
Part 3: the request handlers' required-parameter checks.  A query or body
parameter is `none` when absent; JavaScript truthiness makes the empty
string (and id 0) count as missing too.
-/

/-- JavaScript truthiness of an optional string parameter (`!source`,
`!target`, `!address`, `!name`: absent or empty is falsy). -/
def truthy : Option String → Bool
  | some s => !(s == "")
  | none => false

/-- JavaScript truthiness of the optional numeric `id` (`!id`: absent or 0
is falsy). -/
def truthyId : Option Int → Bool
  | some i => !(i == 0)
  | none => false

/-- `POST /api/edges` status: a body that fails to parse throws into the
catch (500); missing `source` or `target` gives 400; then the insert either
succeeds (200, the default status of `NextResponse.json`) or lands in the
catch (500). -/
def edgesPOST_status (bodyParses : Bool) (source target : Option String)
    (insertOk : Bool) : Nat :=
  if bodyParses = false then 500
  else if truthy source = false ∨ truthy target = false then 400
  else if insertOk = true then 200 else 500

/-- `DELETE /api/edges` status: parse failure 500; missing `id` 400; then
delete succeeds (200) or lands in the catch (500). -/
def edgesDELETE_status (bodyParses : Bool) (id : Option Int)
    (deleteOk : Bool) : Nat :=
  if bodyParses = false then 500
  else if truthyId id = false then 400
  else if deleteOk = true then 200 else 500

/-- `GET /api/avatar` status: missing `name` gives 400; both the success
response and the caught-error response (`{ avatar: null, error }`) use the
default status 200. -/
def avatarGET_status (name : Option String) : Nat :=
  if truthy name = false then 400 else 200

/-- One formatted name-search result (`{ name, label }`). -/
structure SearchResult where
  name : String
  label : String
  deriving DecidableEq, Repr

/-- `GET /api/ens-search`: a missing query or one shorter than 3 characters
answers `NextResponse.json([])` — status 200 with an empty array; otherwise
the subgraph is queried, its results returned on success (200) and an empty
array returned on any upstream failure (also 200).  This handler never
answers 400. -/
def ensSearchGET (q : Option String)
    (upstream : Except Unit (List SearchResult)) : Nat × List SearchResult :=
  match q with
  | none => (200, [])
  | some s =>
      if s.length < 3 then (200, [])
      else
        match upstream with
        | .ok rs => (200, rs)
        | .error _ => (200, [])

/-- Claim C9 counterexample: the claim states that every handler, including name
search, answers status 400 on a missing required parameter.  The name-search
handler with no `q` parameter answers status 200 with a success body (an
empty JSON array), not 400. -/
theorem ens_search_missing_query_not_400 :
    (ensSearchGET none (.ok [])).1 = 200 ∧
      (ensSearchGET none (.ok [])).1 ≠ 400 ∧
      (ensSearchGET none (.ok [])).2 = [] := by
  decide

/-- Claim C9 (corrected): the edges POST (missing `source` or `target`), edges
DELETE (missing `id`), activity GET (missing `address`) and avatar GET
(missing `name`) handlers all answer 400 on a missing required parameter;
the name-search handler instead answers 200 with an empty array for a
missing query. -/
theorem missing_param_statuses (bp bd : Bool) (src tgt name : Option String)
    (id : Option Int) (ins del : Bool) (env : ActEnv)
    (up : Except Unit (List SearchResult)) :
    (bp = true → truthy src = false ∨ truthy tgt = false →
        edgesPOST_status bp src tgt ins = 400) ∧
      (bd = true → truthyId id = false →
        edgesDELETE_status bd id del = 400) ∧
      (activityGET env none).resp.status = 400 ∧
      (truthy name = false → avatarGET_status name = 400) ∧
      ensSearchGET none up = (200, []) := by
  refine ⟨?_, ?_, rfl, ?_, rfl⟩
  · intro hbp hmiss
    unfold edgesPOST_status
    rw [hbp]
    simp only [Bool.true_eq_false, if_false]
    rw [if_pos hmiss]
  · intro hbd hmiss
    unfold edgesDELETE_status
    rw [hbd]
    simp only [Bool.true_eq_false, if_false]
    rw [if_pos hmiss]
  · intro hmiss
    unfold avatarGET_status
    rw [if_pos hmiss]

/-- Witness for the corrected C9 at concrete inputs: an edges POST with an
empty source, an edges DELETE with no id, an avatar GET with no name. -/
theorem missing_param_statuses_witness :
    edgesPOST_status true (some "") (some "b.eth") true = 400 ∧
      edgesDELETE_status true none true = 400 ∧
      (activityGET envC8 none).resp.status = 400 ∧
      avatarGET_status none = 400 ∧
      ensSearchGET none (.ok []) = (200, []) :=
  ⟨(missing_param_statuses true true (some "") (some "b.eth") none none true
      true envC8 (.ok [])).1 rfl (Or.inl (by decide)),
   (missing_param_statuses true true (some "") (some "b.eth") none none true
      true envC8 (.ok [])).2.1 rfl (by decide),
   (missing_param_statuses true true (some "") (some "b.eth") none none true
      true envC8 (.ok [])).2.2.1,
   (missing_param_statuses true true (some "") (some "b.eth") none none true
      true envC8 (.ok [])).2.2.2.1 (by decide),
   (missing_param_statuses true true (some "") (some "b.eth") none none true
      true envC8 (.ok [])).2.2.2.2⟩

end EnsGraph
